import Mathlib

/-!
Shallow embedding of the Cerebro MCP server's dependency-resolution core
(`ProjectService`: `GetProjectDetails`, `GetProjectDependencies`,
`filterDependencies`, `fetchDependenciesAsync`, the formatters) together
with the input validator (`ValidateProjectPermalink`,
`ValidateToolArguments`) and the error types.

Modelling conventions:
- Go strings are Lean `String`; Go ints are Lean `Int`; Go slices are
  Lean `List`; a nullable pointer is `Option`.
- The HTTP transport (`buildURL` + `makeRequest` of `CerebroClient`) is
  external I/O.  It is modelled as an oracle that maps a call site and
  the `CerebroAPIParameters` built at that call site to either an
  `APIResponse` or an error; every dynamic call gets its own outcome,
  which also models context cancellation (the oracle answers every call
  with a cancellation error).
- `fetchDependenciesAsync` launches one goroutine per edge, each
  writing its outcome into its own preassigned slot `results[index]` of
  a preallocated slice, and joins before returning.  Since the slots
  are disjoint, the final slice content is independent of scheduling;
  the embedding gives that final content directly: slot `i` holds the
  outcome of the goroutine body run on edge `i`.
- The list of `CerebroAPIParameters` values passed to `makeRequest`
  during a run is returned alongside the result where a claim is about
  the calls issued (zero-network-call claims).
-/

/-- Query parameters handed to the catalog client (`CerebroAPIParameters`). -/
structure CerebroAPIParameters where
  searchKey : String
  searchValue : String
  inlines : String
  includes : String
deriving DecidableEq

/-- A catalog record (`Project`), with all fields of the Go struct. -/
structure Project where
  ID : Int
  Name : String
  Permalink : String
  Description : String
  StartedOn : String
  CreatedAt : String
  UpdatedAt : String
  SlackChannel : String
  Nickname : String
  CPUUsage : String
  MemoryUsage : String
  Category : String
  DeployTarget : String
  InScopeForSOC2 : String
  RunsOn : String
  TFA : String
  CriticalityTier : String
  CalculatedCriticalityTier : String
  ReleaseState : String
  LinkRepositoryURLs : List String
  ProjectRepositoryURLs : List String
  ProjectStakeholderOwner : String
  ProjectStakeholderOncall : String
  DependentProjectDependenciesIds : List Int
  PrimaryDeploymentUrl : String
  AdditionalDeploymentUrls : List String
deriving DecidableEq

/-- A directed dependency edge (`ProjectDependency`). -/
structure ProjectDependency where
  ID : Int
  DependentProjectID : Int
  ProvidingProjectID : Int
  CreatedAt : String
  UpdatedAt : String
  Description : String
  Optional : Bool
  DeletedAt : Option String
deriving DecidableEq

/-- The catalog's reply (`APIResponse`).  The untyped `Pagination` map is
unused by every function modelled here and is omitted. -/
structure APIResponse where
  Projects : List Project
  ProjectDependencies : List ProjectDependency
deriving DecidableEq

/-- The error values the service layer can produce: `ValidationError`,
`ProjectNotFoundError`, `APIError` (from `errors.go`), and errors created
with `fmt.Errorf` inside `makeRequest` (transport and parse failures,
including context cancellation), carried as their message string. -/
inductive CerebroError where
  | validationError (Field : String) (Message : String)
  | projectNotFoundError (Permalink : String)
  | apiError (StatusCode : Int) (Message : String)
  | wrappedError (Message : String)
deriving DecidableEq

/-- The `Error()` method of each error type. -/
def CerebroError.ErrorMessage : CerebroError → String
  | .validationError f m => "validation error for " ++ f ++ ": " ++ m
  | .projectNotFoundError p => "project not found: " ++ p
  | .apiError c m => "API error " ++ toString c ++ ": " ++ m
  | .wrappedError m => m

/-- Go's `unicode.IsSpace`: the White_Space code points. -/
def unicodeIsSpace (c : Char) : Bool :=
  c = '\t' || c = '\n' || c.toNat = 0x0b || c.toNat = 0x0c || c = '\r' || c = ' ' ||
  c.toNat = 0x85 || c.toNat = 0xA0 || c.toNat = 0x1680 ||
  (0x2000 ≤ c.toNat && c.toNat ≤ 0x200A) ||
  c.toNat = 0x2028 || c.toNat = 0x2029 || c.toNat = 0x202F ||
  c.toNat = 0x205F || c.toNat = 0x3000

/-- Go's `strings.TrimSpace`: drop leading and trailing white space. -/
def TrimSpace (s : String) : String :=
  ⟨((s.data.dropWhile unicodeIsSpace).reverse.dropWhile unicodeIsSpace).reverse⟩

/-- `Validator.ValidateProjectPermalink`: reject a permalink that is
empty after trimming white space; `none` means the nil error. -/
def ValidateProjectPermalink (permalink : String) : Option CerebroError :=
  if TrimSpace permalink = "" then
    some (.validationError "project_permalink" "cannot be empty")
  else
    none

/-- A dynamically-typed Go `interface\x7b\x7d` value as found in a tool-call
argument map (the JSON-decodable shapes). -/
inductive GoValue where
  | str (s : String)
  | num (n : Int)
  | boolean (b : Bool)
  | null
deriving DecidableEq

/-- The type assertion `v.(string)`: succeeds exactly on string values. -/
def GoValue.asString : GoValue → Option String
  | .str s => some s
  | _ => none

/-- Go map access `arguments[key]`: the first binding of the key, if any
(a missing key yields the nil interface value, whose string assertion
fails). -/
def lookupArg : List (String × GoValue) → String → Option GoValue
  | [], _ => none
  | (k, v) :: rest, key => if k = key then some v else lookupArg rest key

/-- `Validator.ValidateToolArguments`: extract `project_permalink` as a
string (else a ValidationError), then validate it; returns the extracted
string and the error slot, as the Go function returns both. -/
def ValidateToolArguments (arguments : List (String × GoValue)) :
    String × Option CerebroError :=
  match (lookupArg arguments "project_permalink").bind GoValue.asString with
  | none => ("", some (.validationError "project_permalink" "must be a string"))
  | some s => (s, ValidateProjectPermalink s)

/-- Identifies one dynamic `makeRequest` call of a service operation: the
root-entity query, or the lookup issued by the goroutine for edge `index`. -/
inductive CallSite where
  | root
  | edge (index : Nat)
deriving DecidableEq

/-- The transport oracle: the outcome `makeRequest(ctx, buildURL(params))`
would have at a given call site.  An `Except.error` covers transport
failures, non-2xx statuses, parse failures and context cancellation. -/
def CatalogOracle : Type :=
  CallSite → CerebroAPIParameters → Except CerebroError APIResponse

/-- `filterDependencies`: keep the edges whose dependent is the project,
preserving order. -/
def filterDependencies (deps : List ProjectDependency) (projectID : Int) :
    List ProjectDependency :=
  deps.filter (fun dep => dep.DependentProjectID = projectID)

/-- Per-edge outcome record (`dependencyResult`). -/
structure dependencyResult where
  index : Nat
  dep : ProjectDependency
  providingProject : Option Project
  err : Option CerebroError
deriving DecidableEq

/-- The query parameters the goroutine for an edge builds: search by `id`
with the providing project's id rendered in decimal. -/
def dependencyLookupParams (dependency : ProjectDependency) : CerebroAPIParameters :=
  { searchKey := "id"
    searchValue := toString dependency.ProvidingProjectID
    inlines := ""
    includes := "" }

/-- The body of the goroutine `fetchDependenciesAsync` launches for edge
`index`: look the providing project up, then classify the outcome into
failure, not-found, or first returned project. -/
def fetchDependencyWorker (lookup : Nat → CerebroAPIParameters → Except CerebroError APIResponse)
    (index : Nat) (dependency : ProjectDependency) : dependencyResult :=
  match lookup index (dependencyLookupParams dependency) with
  | .error e => { index := index, dep := dependency, providingProject := none, err := some e }
  | .ok response =>
    match response.Projects with
    | [] => { index := index, dep := dependency, providingProject := none, err := none }
    | p :: _ => { index := index, dep := dependency, providingProject := some p, err := none }

/-- The fan-out loop `for i, dep := range dependencies`, carrying the
running index: slot `i` of the returned slice holds the outcome of the
goroutine for edge `i`. -/
def fetchLoop (lookup : Nat → CerebroAPIParameters → Except CerebroError APIResponse) :
    Nat → List ProjectDependency → List dependencyResult
  | _, [] => []
  | i, dep :: rest => fetchDependencyWorker lookup i dep :: fetchLoop lookup (i + 1) rest

/-- `fetchDependenciesAsync`: the final content of the preallocated
`results` slice after all goroutines have written their own slot and the
wait group has been joined. -/
def fetchDependenciesAsync (lookup : Nat → CerebroAPIParameters → Except CerebroError APIResponse)
    (dependencies : List ProjectDependency) : List dependencyResult :=
  fetchLoop lookup 0 dependencies

/-- The `makeRequest` calls `fetchDependenciesAsync` issues: one per edge,
with the parameters its goroutine builds. -/
def fetchDependenciesCalls (dependencies : List ProjectDependency) :
    List CerebroAPIParameters :=
  dependencies.map dependencyLookupParams

/-- `ProjectDetailsResult`. -/
structure ProjectDetailsResult where
  Project : Project
  FormattedText : String
deriving DecidableEq

/-- `ProjectDependenciesResult`. -/
structure ProjectDependenciesResult where
  Project : Project
  ProjectDependencies : List ProjectDependency
  FormattedText : String
deriving DecidableEq

/-- `formatProjectDetails`: render one project for display. -/
def formatProjectDetails (project : Project) (permalink : String) : String :=
  let result := "# Project Details for: " ++ permalink ++ "\n\n"
  let result := result ++ "**Project Name:** " ++ project.Name ++ "\n"
  let result := result ++ "**Description:** " ++ project.Description ++ "\n"
  let result := result ++ "**Category:** " ++ project.Category ++ "\n"
  let result := result ++ "**Calculated Criticality Tier:** " ++ project.CalculatedCriticalityTier ++ "\n"
  let result := result ++ "**Release State:** " ++ project.ReleaseState ++ "\n"
  let result := result ++ "**Owner:** " ++ project.ProjectStakeholderOwner ++ "\n"
  let result := result ++ "**Slack Channel:** " ++ project.SlackChannel ++ "\n"
  if project.ProjectRepositoryURLs.isEmpty then
    result ++ "No project repository URLs found.\n"
  else
    result ++ "\n**Project Repository URLs (" ++ toString project.ProjectRepositoryURLs.length ++ "):**\n"
      ++ String.join (project.ProjectRepositoryURLs.enum.map
          (fun p => toString (p.1 + 1) ++ ". " ++ p.2 ++ "\n"))

/-- One iteration of the rendering loop of `formatDependencies` (entry
`i` of the result list, printed as item `i+1`). -/
def formatDependencyEntry (i : Nat) (res : dependencyResult) : String :=
  match res.err with
  | some e =>
    "### " ++ toString (i + 1) ++ ". Error fetching project ID "
      ++ toString res.dep.ProvidingProjectID ++ "\n"
      ++ "- **Error:** " ++ e.ErrorMessage ++ "\n\n"
  | none =>
    match res.providingProject with
    | none =>
      "### " ++ toString (i + 1) ++ ". Project ID "
        ++ toString res.dep.ProvidingProjectID ++ " (Not Found)\n"
        ++ "- **Dependency ID:** " ++ toString res.dep.ID ++ "\n"
        ++ "- **Optional:** " ++ toString res.dep.Optional ++ "\n\n"
    | some providingProject =>
      "### " ++ toString (i + 1) ++ ". " ++ providingProject.Name ++ "\n"
        ++ "- **Dependency ID:** " ++ toString res.dep.ID ++ "\n"
        ++ "- **Providing Project ID:** " ++ toString res.dep.ProvidingProjectID ++ "\n"
        ++ "- **Permalink:** " ++ providingProject.Permalink ++ "\n"
        ++ "- **Description:** " ++ providingProject.Description ++ "\n"
        ++ "- **Category:** " ++ providingProject.Category ++ "\n"
        ++ "- **Criticality Tier:** " ++ providingProject.CalculatedCriticalityTier ++ "\n"
        ++ "- **Release State:** " ++ providingProject.ReleaseState ++ "\n"
        ++ "- **Owner Team:** " ++ providingProject.ProjectStakeholderOwner ++ "\n"
        ++ "- **Slack Channel:** " ++ providingProject.SlackChannel ++ "\n"
        ++ "- **Optional Dependency:** " ++ toString res.dep.Optional ++ "\n"
        ++ (if res.dep.Description ≠ "" then
              "- **Dependency Description:** " ++ res.dep.Description ++ "\n"
            else "")
        ++ "\n"

/-- `formatDependencies`: render the project header and every
per-dependency outcome. -/
def formatDependencies (project : Project) (dependencyResults : List dependencyResult) : String :=
  "# Dependencies for Project: " ++ project.Name ++ "\n\n"
    ++ "**Project ID:** " ++ toString project.ID ++ "\n"
    ++ "**Permalink:** " ++ project.Permalink ++ "\n"
    ++ "**Description:** " ++ project.Description ++ "\n\n"
    ++ "## Dependencies (" ++ toString dependencyResults.length ++ ")\n\n"
    ++ String.join (dependencyResults.enum.map (fun p => formatDependencyEntry p.1 p.2))

/-- The `inlines` literal both service operations pass to the catalog. -/
def detailsInlines : String :=
  "project_repository_urls,project_stakeholder_owner_name,project_stakeholder_oncall_name,link_deployment_url,link_deployment_urls"

/-- `ProjectService.GetProjectDetails`, paired with the list of
`makeRequest` calls the run issues. -/
def GetProjectDetails (makeRequest : CatalogOracle) (permalink : String) :
    Except CerebroError ProjectDetailsResult × List CerebroAPIParameters :=
  match ValidateProjectPermalink permalink with
  | some err => (.error err, [])
  | none =>
    let params : CerebroAPIParameters :=
      { searchKey := "permalink", searchValue := permalink
        inlines := detailsInlines, includes := "" }
    match makeRequest .root params with
    | .error err => (.error err, [params])
    | .ok response =>
      match response.Projects with
      | [] => (.error (.projectNotFoundError permalink), [params])
      | project :: _ =>
        (.ok { Project := project
               FormattedText := formatProjectDetails project permalink }, [params])

/-- `ProjectService.GetProjectDependencies`, paired with the list of
`makeRequest` calls the run issues (root query first, then one call per
relevant edge when the fan-out runs). -/
def GetProjectDependencies (makeRequest : CatalogOracle) (permalink : String) :
    Except CerebroError ProjectDependenciesResult × List CerebroAPIParameters :=
  match ValidateProjectPermalink permalink with
  | some err => (.error err, [])
  | none =>
    let params : CerebroAPIParameters :=
      { searchKey := "permalink", searchValue := permalink
        inlines := detailsInlines, includes := "dependent_project_dependencies" }
    match makeRequest .root params with
    | .error err => (.error err, [params])
    | .ok response =>
      match response.Projects with
      | [] => (.error (.projectNotFoundError permalink), [params])
      | project :: _ =>
        if response.ProjectDependencies.isEmpty then
          (.ok { Project := project
                 ProjectDependencies := []
                 FormattedText := "# No dependencies found for project: " ++ project.Name ++ "\n\n" },
           [params])
        else
          let relevantDependencies := filterDependencies response.ProjectDependencies project.ID
          let dependenciesWithDetails :=
            fetchDependenciesAsync (fun i p => makeRequest (.edge i) p) relevantDependencies
          (.ok { Project := project
                 ProjectDependencies := relevantDependencies
                 FormattedText := formatDependencies project dependenciesWithDetails },
           params :: fetchDependenciesCalls relevantDependencies)

/-- Spec state (1) of a per-edge outcome: a resolved entity (nil error,
non-nil providing project). -/
def dependencyResult.isEntity (r : dependencyResult) : Prop :=
  r.err = none ∧ r.providingProject ≠ none

/-- Spec state (2): not found (nil error, nil providing project). -/
def dependencyResult.isNotFound (r : dependencyResult) : Prop :=
  r.err = none ∧ r.providingProject = none

/-- Spec state (3): failure (non-nil error, nil providing project). -/
def dependencyResult.isFailure (r : dependencyResult) : Prop :=
  r.err ≠ none ∧ r.providingProject = none

/-! Concrete sample data used by the witness instantiations. -/

/-- A project with every field at its zero value. -/
def blankProject : Project :=
  { ID := 0, Name := "", Permalink := "", Description := "", StartedOn := ""
    CreatedAt := "", UpdatedAt := "", SlackChannel := "", Nickname := ""
    CPUUsage := "", MemoryUsage := "", Category := "", DeployTarget := ""
    InScopeForSOC2 := "", RunsOn := "", TFA := "", CriticalityTier := ""
    CalculatedCriticalityTier := "", ReleaseState := "", LinkRepositoryURLs := []
    ProjectRepositoryURLs := [], ProjectStakeholderOwner := ""
    ProjectStakeholderOncall := "", DependentProjectDependenciesIds := []
    PrimaryDeploymentUrl := "", AdditionalDeploymentUrls := [] }

/-- Catalog entity with id 8. -/
def project8 : Project :=
  { blankProject with ID := 8, Name := "alpha", Permalink := "alpha" }

/-- Catalog entity with id 10. -/
def project10 : Project :=
  { blankProject with ID := 10, Name := "beta", Permalink := "beta" }

/-- An edge with every field at its zero value. -/
def blankDependency : ProjectDependency :=
  { ID := 0, DependentProjectID := 0, ProvidingProjectID := 0, CreatedAt := ""
    UpdatedAt := "", Description := "", Optional := false, DeletedAt := none }

/-- Edge from project 3 to providing project 8. -/
def edge8 : ProjectDependency :=
  { blankDependency with ID := 1, DependentProjectID := 3, ProvidingProjectID := 8 }

/-- Edge from project 3 to providing project 10. -/
def edge10 : ProjectDependency :=
  { blankDependency with ID := 2, DependentProjectID := 3, ProvidingProjectID := 10 }

/-- Edge from project 3 to the dangling providing project 999. -/
def edge999 : ProjectDependency :=
  { blankDependency with ID := 3, DependentProjectID := 3, ProvidingProjectID := 999 }

/-- The spec's concrete scenario: edges for providing ids 8, 10, 999. -/
def sampleEdges : List ProjectDependency := [edge8, edge10, edge999]

/-- A successful response carrying the given projects and no edges. -/
def okResponse (ps : List Project) : APIResponse :=
  { Projects := ps, ProjectDependencies := [] }

/-- Lookup oracle over a catalog holding projects 8 and 10 only. -/
def sampleLookup : Nat → CerebroAPIParameters → Except CerebroError APIResponse :=
  fun _ p =>
    if p.searchValue = "8" then .ok (okResponse [project8])
    else if p.searchValue = "10" then .ok (okResponse [project10])
    else .ok (okResponse [])

/-- A transport failure as `makeRequest` wraps it. -/
def sampleFailure : CerebroError :=
  .wrappedError "failed to execute request: context canceled"

/-- Like `sampleLookup`, but the call for edge index 0 fails. -/
def failingLookup0 : Nat → CerebroAPIParameters → Except CerebroError APIResponse :=
  fun i p => if i = 0 then .error sampleFailure else sampleLookup i p

/-- Oracle after context cancellation: every call fails. -/
def cancelledLookup : Nat → CerebroAPIParameters → Except CerebroError APIResponse :=
  fun _ _ => .error sampleFailure

/-- Service-level oracle whose every query succeeds with zero matches. -/
def emptyCatalogOracle : CatalogOracle :=
  fun _ _ => .ok (okResponse [])

/-! Helper lemmas about the fan-out loop. -/

/-- The loop produces one result per input edge. -/
theorem fetchLoop_length (lookup : Nat → CerebroAPIParameters → Except CerebroError APIResponse)
    (start : Nat) (deps : List ProjectDependency) :
    (fetchLoop lookup start deps).length = deps.length := by
  induction deps generalizing start with
  | nil => rfl
  | cons d rest ih => simp [fetchLoop, ih]

/-- Slot `j` of the loop started at `start` is the worker's outcome on
edge `j` with running index `start + j`. -/
theorem fetchLoop_getElem? (lookup : Nat → CerebroAPIParameters → Except CerebroError APIResponse)
    (start : Nat) (deps : List ProjectDependency) (j : Nat) :
    (fetchLoop lookup start deps)[j]? =
      (deps[j]?).map (fun dep => fetchDependencyWorker lookup (start + j) dep) := by
  induction deps generalizing start j with
  | nil => simp [fetchLoop]
  | cons d rest ih =>
    cases j with
    | zero => simp [fetchLoop]
    | succ j' =>
      simp only [fetchLoop, List.getElem?_cons_succ, ih (start + 1) j']
      have harith : start + 1 + j' = start + (j' + 1) := by omega
      rw [harith]

/-- Slot `i` of `fetchDependenciesAsync` is the worker's outcome on edge `i`. -/
theorem fetchDependenciesAsync_getElem?
    (lookup : Nat → CerebroAPIParameters → Except CerebroError APIResponse)
    (deps : List ProjectDependency) (i : Nat) :
    (fetchDependenciesAsync lookup deps)[i]? =
      (deps[i]?).map (fun dep => fetchDependencyWorker lookup i dep) := by
  have h := fetchLoop_getElem? lookup 0 deps i
  simpa using h

/-- Every element of the loop's output is some worker outcome. -/
theorem mem_fetchLoop (lookup : Nat → CerebroAPIParameters → Except CerebroError APIResponse)
    (start : Nat) (deps : List ProjectDependency) (r : dependencyResult)
    (hr : r ∈ fetchLoop lookup start deps) :
    ∃ j dep, r = fetchDependencyWorker lookup j dep := by
  induction deps generalizing start with
  | nil => simp [fetchLoop] at hr
  | cons d rest ih =>
    simp only [fetchLoop, List.mem_cons] at hr
    rcases hr with h | h
    · exact ⟨start, d, h⟩
    · exact ih (start + 1) h

/-- The worker's output depends on the oracle only through the one call
it makes. -/
theorem fetchDependencyWorker_congr
    (lookup₁ lookup₂ : Nat → CerebroAPIParameters → Except CerebroError APIResponse)
    (i : Nat) (dep : ProjectDependency)
    (h : lookup₁ i (dependencyLookupParams dep) = lookup₂ i (dependencyLookupParams dep)) :
    fetchDependencyWorker lookup₁ i dep = fetchDependencyWorker lookup₂ i dep := by
  unfold fetchDependencyWorker
  rw [h]

/-- Claim C1: for every input dependency list of length N,
`fetchDependenciesAsync` returns exactly N results, and for every index
`i` the i-th result is the outcome of resolving the i-th input edge
(result order matches input order, not completion order), regardless of
which lookups succeed or fail. -/
theorem claim_C1_count_and_order
    (lookup : Nat → CerebroAPIParameters → Except CerebroError APIResponse)
    (dependencies : List ProjectDependency) :
    (fetchDependenciesAsync lookup dependencies).length = dependencies.length ∧
    ∀ i : Nat, (fetchDependenciesAsync lookup dependencies)[i]? =
      (dependencies[i]?).map (fun dep => fetchDependencyWorker lookup i dep) :=
  ⟨fetchLoop_length lookup 0 dependencies,
   fun i => fetchDependenciesAsync_getElem? lookup dependencies i⟩

/-- Claim C5: for the empty input list `fetchDependenciesAsync` returns the
empty result sequence and issues zero catalog lookups, and the count
invariant `len(output) = len(input)` holds for all inputs including the
empty list. -/
theorem claim_C5_empty_input :
    (∀ lookup : Nat → CerebroAPIParameters → Except CerebroError APIResponse,
      fetchDependenciesAsync lookup [] = []) ∧
    fetchDependenciesCalls [] = [] ∧
    (∀ (lookup : Nat → CerebroAPIParameters → Except CerebroError APIResponse)
      (dependencies : List ProjectDependency),
      (fetchDependenciesAsync lookup dependencies).length = dependencies.length) :=
  ⟨fun _ => rfl, rfl, fun lookup dependencies => fetchLoop_length lookup 0 dependencies⟩

/-- The worker stamps its own index into the result, in every branch. -/
theorem fetchDependencyWorker_index
    (lookup : Nat → CerebroAPIParameters → Except CerebroError APIResponse)
    (i : Nat) (dep : ProjectDependency) :
    (fetchDependencyWorker lookup i dep).index = i := by
  unfold fetchDependencyWorker
  split
  · rfl
  · split <;> rfl

/-- The worker carries the edge it was given into the result, in every
branch. -/
theorem fetchDependencyWorker_dep
    (lookup : Nat → CerebroAPIParameters → Except CerebroError APIResponse)
    (i : Nat) (dep : ProjectDependency) :
    (fetchDependencyWorker lookup i dep).dep = dep := by
  unfold fetchDependencyWorker
  split
  · rfl
  · split <;> rfl

/-- Claim C10: the result stored in slot `i` has its `index` field equal to
`i` and its `dep` field equal to the i-th input dependency, in all three
outcome cases: each result carries the unmodified edge it came from. -/
theorem claim_C10_slot_carries_edge
    (lookup : Nat → CerebroAPIParameters → Except CerebroError APIResponse)
    (dependencies : List ProjectDependency) (i : Nat) (dep : ProjectDependency)
    (h : dependencies[i]? = some dep) :
    ((fetchDependenciesAsync lookup dependencies)[i]?).map dependencyResult.index = some i ∧
    ((fetchDependenciesAsync lookup dependencies)[i]?).map dependencyResult.dep = some dep := by
  rw [fetchDependenciesAsync_getElem? lookup dependencies i, h]
  simp only [Option.map_some', Option.map_map, Option.some.injEq]
  exact ⟨fetchDependencyWorker_index lookup i dep, fetchDependencyWorker_dep lookup i dep⟩

/-- Witness for C10 at the spec's concrete scenario, slot 1 (edge to
providing project 10). -/
theorem claim_C10_witness :
    sampleEdges[1]? = some edge10 ∧
    ((fetchDependenciesAsync sampleLookup sampleEdges)[1]?).map dependencyResult.index = some 1 ∧
    ((fetchDependenciesAsync sampleLookup sampleEdges)[1]?).map dependencyResult.dep = some edge10 :=
  ⟨by decide, claim_C10_slot_carries_edge sampleLookup sampleEdges 1 edge10 (by decide)⟩

/-- Claim C4: the per-edge outcome classification — a lookup error yields a
failure result (non-nil error, nil project), a successful lookup with zero
projects yields a not-found result (both nil), and a successful lookup
with at least one project yields the first returned project as the
resolved entity. -/
theorem claim_C4_outcome_classification
    (lookup : Nat → CerebroAPIParameters → Except CerebroError APIResponse)
    (dependencies : List ProjectDependency) (i : Nat) (dep : ProjectDependency)
    (h : dependencies[i]? = some dep) :
    (∀ e : CerebroError, lookup i (dependencyLookupParams dep) = .error e →
      (fetchDependenciesAsync lookup dependencies)[i]? =
        some { index := i, dep := dep, providingProject := none, err := some e }) ∧
    (∀ response : APIResponse, lookup i (dependencyLookupParams dep) = .ok response →
      response.Projects = [] →
      (fetchDependenciesAsync lookup dependencies)[i]? =
        some { index := i, dep := dep, providingProject := none, err := none }) ∧
    (∀ (response : APIResponse) (p : Project) (rest : List Project),
      lookup i (dependencyLookupParams dep) = .ok response →
      response.Projects = p :: rest →
      (fetchDependenciesAsync lookup dependencies)[i]? =
        some { index := i, dep := dep, providingProject := some p, err := none }) := by
  rw [fetchDependenciesAsync_getElem? lookup dependencies i, h]
  refine ⟨?_, ?_, ?_⟩
  · intro e he
    simp [fetchDependencyWorker, he]
  · intro response hok hnil
    simp [fetchDependencyWorker, hok, hnil]
  · intro response p rest hok hcons
    simp [fetchDependencyWorker, hok, hcons]

/-- Witness for C4 at the spec's concrete scenario: the dangling edge to
project 999 resolves to a not-found result. -/
theorem claim_C4_witness :
    sampleEdges[2]? = some edge999 ∧
    (fetchDependenciesAsync sampleLookup sampleEdges)[2]? =
      some { index := 2, dep := edge999, providingProject := none, err := none } :=
  ⟨by decide,
   (claim_C4_outcome_classification sampleLookup sampleEdges 2 edge999 (by decide)).2.1
     (okResponse []) (by rfl) rfl⟩

/-- Claim C2: failure isolation — if the lookup for one edge fails, the
error lands only in that edge's slot; every other slot is exactly what it
would be under an oracle where that edge's lookup does not fail; and the
fan-out as a whole still returns a full result list (its return type
carries no error). -/
theorem claim_C2_failure_isolation
    (lookup₁ lookup₂ : Nat → CerebroAPIParameters → Except CerebroError APIResponse)
    (dependencies : List ProjectDependency) (j : Nat) (depj : ProjectDependency)
    (e : CerebroError)
    (hdep : dependencies[j]? = some depj)
    (hfail : lookup₁ j (dependencyLookupParams depj) = .error e)
    (hagree : ∀ (i : Nat) (p : CerebroAPIParameters), i ≠ j → lookup₁ i p = lookup₂ i p) :
    (fetchDependenciesAsync lookup₁ dependencies).length = dependencies.length ∧
    (∀ i : Nat, i ≠ j → (fetchDependenciesAsync lookup₁ dependencies)[i]? =
      (fetchDependenciesAsync lookup₂ dependencies)[i]?) ∧
    (fetchDependenciesAsync lookup₁ dependencies)[j]? =
      some { index := j, dep := depj, providingProject := none, err := some e } := by
  refine ⟨fetchLoop_length lookup₁ 0 dependencies, ?_, ?_⟩
  · intro i hne
    rw [fetchDependenciesAsync_getElem? lookup₁ dependencies i,
        fetchDependenciesAsync_getElem? lookup₂ dependencies i]
    cases hd : dependencies[i]? with
    | none => rfl
    | some d =>
      simp only [Option.map_some']
      exact congrArg some
        (fetchDependencyWorker_congr lookup₁ lookup₂ i d
          (hagree i (dependencyLookupParams d) hne))
  · rw [fetchDependenciesAsync_getElem? lookup₁ dependencies j, hdep]
    simp [fetchDependencyWorker, hfail]

/-- Witness for C2: the call for edge 0 fails under `failingLookup0`;
edges 1 and 2 resolve exactly as under the fully healthy `sampleLookup`. -/
theorem claim_C2_witness :
    (fetchDependenciesAsync failingLookup0 sampleEdges).length = sampleEdges.length ∧
    (fetchDependenciesAsync failingLookup0 sampleEdges)[1]? =
      (fetchDependenciesAsync sampleLookup sampleEdges)[1]? ∧
    (fetchDependenciesAsync failingLookup0 sampleEdges)[2]? =
      (fetchDependenciesAsync sampleLookup sampleEdges)[2]? ∧
    (fetchDependenciesAsync failingLookup0 sampleEdges)[0]? =
      some { index := 0, dep := edge8, providingProject := none, err := some sampleFailure } :=
  let h := claim_C2_failure_isolation failingLookup0 sampleLookup sampleEdges 0 edge8 sampleFailure
    (by decide) (by rfl) (by intro i p hne; simp [failingLookup0, hne])
  ⟨h.1, h.2.1 1 (by decide), h.2.1 2 (by decide), h.2.2⟩

/-- Claim C3: every result is in exactly one of the three states —
resolved entity, not found, or failure; in particular no result carries
both a non-nil error and a non-nil providing project. -/
theorem claim_C3_exclusive_states
    (lookup : Nat → CerebroAPIParameters → Except CerebroError APIResponse)
    (dependencies : List ProjectDependency) (r : dependencyResult)
    (hr : r ∈ fetchDependenciesAsync lookup dependencies) :
    (r.isEntity ∨ r.isNotFound ∨ r.isFailure) ∧
    ¬(r.isEntity ∧ r.isNotFound) ∧
    ¬(r.isEntity ∧ r.isFailure) ∧
    ¬(r.isNotFound ∧ r.isFailure) := by
  obtain ⟨j, dep, rfl⟩ := mem_fetchLoop lookup 0 dependencies r hr
  unfold fetchDependencyWorker
  cases h : lookup j (dependencyLookupParams dep) with
  | error e =>
    simp [dependencyResult.isEntity, dependencyResult.isNotFound, dependencyResult.isFailure]
  | ok response =>
    cases hp : response.Projects with
    | nil =>
      simp [hp, dependencyResult.isEntity, dependencyResult.isNotFound, dependencyResult.isFailure]
    | cons p rest =>
      simp [hp, dependencyResult.isEntity, dependencyResult.isNotFound, dependencyResult.isFailure]

/-- Witness for C3: the resolved entity result for edge 0 of the sample
scenario is in state (1) and in no other state. -/
theorem claim_C3_witness :
    ({ index := 0, dep := edge8, providingProject := some project8, err := none } : dependencyResult)
        ∈ fetchDependenciesAsync sampleLookup sampleEdges ∧
    (({ index := 0, dep := edge8, providingProject := some project8, err := none } : dependencyResult).isEntity ∨
      ({ index := 0, dep := edge8, providingProject := some project8, err := none } : dependencyResult).isNotFound ∨
      ({ index := 0, dep := edge8, providingProject := some project8, err := none } : dependencyResult).isFailure) :=
  ⟨by decide,
   (claim_C3_exclusive_states sampleLookup sampleEdges
     { index := 0, dep := edge8, providingProject := some project8, err := none }
     (by decide)).1⟩

/-- Claim C8: when every per-edge lookup fails (context canceled before
any completes), the fan-out still returns one result per edge, every
result is a failure for its own edge, and no result carries a resolved
entity. -/
theorem claim_C8_cancellation
    (lookup : Nat → CerebroAPIParameters → Except CerebroError APIResponse)
    (dependencies : List ProjectDependency)
    (hcancel : ∀ (i : Nat) (p : CerebroAPIParameters), ∃ e, lookup i p = .error e) :
    (fetchDependenciesAsync lookup dependencies).length = dependencies.length ∧
    ∀ r ∈ fetchDependenciesAsync lookup dependencies,
      r.providingProject = none ∧ r.err ≠ none := by
  refine ⟨fetchLoop_length lookup 0 dependencies, ?_⟩
  intro r hr
  obtain ⟨j, dep, rfl⟩ := mem_fetchLoop lookup 0 dependencies r hr
  obtain ⟨e, he⟩ := hcancel j (dependencyLookupParams dep)
  unfold fetchDependencyWorker
  rw [he]
  simp

/-- Witness for C8: under the all-calls-fail oracle, the length invariant
holds and the concrete failure result for edge 1 — a member of the output
— carries no resolved entity and a non-nil error. -/
theorem claim_C8_witness :
    (fetchDependenciesAsync cancelledLookup sampleEdges).length = sampleEdges.length ∧
    ({ index := 1, dep := edge10, providingProject := none, err := some sampleFailure }
        : dependencyResult).providingProject = none ∧
    ({ index := 1, dep := edge10, providingProject := none, err := some sampleFailure }
        : dependencyResult).err ≠ none :=
  let h := claim_C8_cancellation cancelledLookup sampleEdges (fun _ _ => ⟨sampleFailure, rfl⟩)
  ⟨h.1, h.2 { index := 1, dep := edge10, providingProject := none, err := some sampleFailure }
    (by decide)⟩

/-- Claim C6: when the root-entity query succeeds with zero matching
projects, `GetProjectDependencies` returns a `ProjectNotFoundError` and
the run's call list holds only the root query — the per-dependency
fan-out is never started. -/
theorem claim_C6_root_not_found
    (makeRequest : CatalogOracle) (permalink : String) (response : APIResponse)
    (hvalid : ValidateProjectPermalink permalink = none)
    (hroot : makeRequest .root
      { searchKey := "permalink", searchValue := permalink
        inlines := detailsInlines, includes := "dependent_project_dependencies" } = .ok response)
    (hempty : response.Projects = []) :
    GetProjectDependencies makeRequest permalink =
      (.error (.projectNotFoundError permalink),
       [{ searchKey := "permalink", searchValue := permalink
          inlines := detailsInlines, includes := "dependent_project_dependencies" }]) := by
  unfold GetProjectDependencies
  rw [hvalid]
  simp only [hroot, hempty]

/-- Witness for C6: a catalog with no matching root entity for permalink
"ghost". -/
theorem claim_C6_witness :
    GetProjectDependencies emptyCatalogOracle "ghost" =
      (.error (.projectNotFoundError "ghost"),
       [{ searchKey := "permalink", searchValue := "ghost"
          inlines := detailsInlines, includes := "dependent_project_dependencies" }]) :=
  claim_C6_root_not_found emptyCatalogOracle "ghost" (okResponse []) (by rfl) rfl rfl

/-- Claim C7: a permalink rejected by `ValidateProjectPermalink` makes both
`GetProjectDetails` and `GetProjectDependencies` return that
ValidationError with an empty call list — no catalog call of any kind is
made. -/
theorem claim_C7_validation_before_network
    (makeRequest : CatalogOracle) (permalink : String) (e : CerebroError)
    (hinvalid : ValidateProjectPermalink permalink = some e) :
    GetProjectDetails makeRequest permalink = (.error e, []) ∧
    GetProjectDependencies makeRequest permalink = (.error e, []) ∧
    e = .validationError "project_permalink" "cannot be empty" := by
  refine ⟨?_, ?_, ?_⟩
  · unfold GetProjectDetails
    rw [hinvalid]
  · unfold GetProjectDependencies
    rw [hinvalid]
  · unfold ValidateProjectPermalink at hinvalid
    by_cases h : TrimSpace permalink = ""
    · rw [if_pos h] at hinvalid
      injection hinvalid with h'
      exact h'.symm
    · rw [if_neg h] at hinvalid
      cases hinvalid

/-- Witness for C7: the all-blank permalink is rejected by both operations
with no calls issued. -/
theorem claim_C7_witness :
    GetProjectDetails emptyCatalogOracle "   " =
      (.error (.validationError "project_permalink" "cannot be empty"), []) ∧
    GetProjectDependencies emptyCatalogOracle "   " =
      (.error (.validationError "project_permalink" "cannot be empty"), []) :=
  ⟨(claim_C7_validation_before_network emptyCatalogOracle "   " _ (by rfl)).1,
   (claim_C7_validation_before_network emptyCatalogOracle "   " _ (by rfl)).2.1⟩

/-- `TrimSpace` yields the empty string exactly when every character of
the input is white space. -/
theorem trimSpace_eq_empty_iff (s : String) :
    TrimSpace s = "" ↔ ∀ c ∈ s.data, unicodeIsSpace c := by
  have hiff : TrimSpace s = "" ↔
      (List.dropWhile unicodeIsSpace (List.dropWhile unicodeIsSpace s.data).reverse).reverse = [] := by
    constructor
    · intro h
      exact congrArg String.data h
    · intro h
      unfold TrimSpace
      rw [h]
  rw [hiff, List.reverse_eq_nil_iff, List.dropWhile_eq_nil_iff]
  simp only [List.mem_reverse]
  constructor
  · intro h c hc
    have hsplit := List.takeWhile_append_dropWhile (p := unicodeIsSpace) (l := s.data)
    rw [← hsplit] at hc
    rcases List.mem_append.mp hc with htake | hdrop
    · exact List.mem_takeWhile_imp htake
    · exact h c hdrop
  · intro h x hx
    have hsub : s.data.dropWhile unicodeIsSpace ⊆ s.data :=
      (List.dropWhile_sublist unicodeIsSpace).subset
    exact h x (hsub hx)

/-- Claim C9: a permalink whose characters are all white space (including
the empty string) is rejected with the `project_permalink` ValidationError;
any permalink with at least one non-white-space character passes; and
`ValidateToolArguments` reports a ValidationError whenever the
`project_permalink` argument is absent or not a string. -/
theorem claim_C9_validator_boundary :
    (∀ s : String, (∀ c ∈ s.data, unicodeIsSpace c) →
      ValidateProjectPermalink s =
        some (.validationError "project_permalink" "cannot be empty")) ∧
    (∀ s : String, (∃ c ∈ s.data, ¬ unicodeIsSpace c) →
      ValidateProjectPermalink s = none) ∧
    (∀ arguments : List (String × GoValue),
      (∀ v : GoValue, lookupArg arguments "project_permalink" = some v → v.asString = none) →
      (ValidateToolArguments arguments).2 =
        some (.validationError "project_permalink" "must be a string")) := by
  refine ⟨?_, ?_, ?_⟩
  · intro s hall
    unfold ValidateProjectPermalink
    rw [if_pos ((trimSpace_eq_empty_iff s).mpr hall)]
  · intro s hex
    unfold ValidateProjectPermalink
    rw [if_neg ?_]
    intro hcon
    obtain ⟨c, hc, hns⟩ := hex
    exact hns ((trimSpace_eq_empty_iff s).mp hcon c hc)
  · intro arguments hnostr
    unfold ValidateToolArguments
    cases hb : (lookupArg arguments "project_permalink").bind GoValue.asString with
    | none => rfl
    | some s =>
      obtain ⟨v, hv, hs⟩ := Option.bind_eq_some.mp hb
      rw [hnostr v hv] at hs
      cases hs

/-- Witness for C9: a blank permalink is rejected, a non-blank one is
accepted, and a numeric `project_permalink` argument is rejected as
not-a-string. -/
theorem claim_C9_witness :
    ValidateProjectPermalink "  " =
      some (.validationError "project_permalink" "cannot be empty") ∧
    ValidateProjectPermalink "abc" = none ∧
    (ValidateToolArguments [("project_permalink", GoValue.num 3)]).2 =
      some (.validationError "project_permalink" "must be a string") :=
  ⟨claim_C9_validator_boundary.1 "  " (by decide),
   claim_C9_validator_boundary.2.1 "abc" ⟨'a', by decide, by decide⟩,
   claim_C9_validator_boundary.2.2 [("project_permalink", GoValue.num 3)]
     (by
       intro v hv
       rw [show lookupArg [("project_permalink", GoValue.num 3)] "project_permalink" =
             some (GoValue.num 3) from rfl] at hv
       injection hv with h
       subst h
       rfl)⟩
